import Mathlib

/-!
Shallow embedding of the fitness-subscription web application
(`accounts/models.py`, `accounts/views.py`, `accounts/dashboard_views.py`,
`accounts/trainer_dashboard_views.py`, `accounts/admin_views.py`,
`accounts/admin.py`) together with theorems settling the specification
claims about it.

Modelling conventions:
* instants (`timezone.now()`, `DateTimeField`) are integers counting seconds;
  `timedelta(days = d)` is `86400 * d`, `timedelta(minutes = m)` is `60 * m`;
* `Decimal` values are rationals (`ℚ`);
* nullable columns are `Option`; Python `float("inf")` (in `days_remaining`)
  is rendered by `none` of an `Option ℤ` result;
* the database is explicit state: a `List` of records per table, with the
  uniqueness constraints stated as `Pairwise` invariants;
* Python `timedelta.days` is floor division, embedded as `Int.fdiv`.
-/

namespace FitnessSite

/-- Model of `accounts/models.py::SubscriptionPlan` (the columns the claims
touch: price, duration, feature flags). -/
structure SubscriptionPlan where
  name : String
  price : ℚ
  duration_days : ℕ
  trial_days : ℕ
  trainer_support : Bool
  premium_content : Bool
  is_active : Bool
  deriving Repr, DecidableEq

/-- Model of `SubscriptionPlan.monthly_equivalent`:
`(self.price * 30) / self.duration_days`.  The Python expression raises
(`decimal.DivisionByZero`) when `duration_days = 0`; the embedding returns
`none` there and `some` of the quotient otherwise. -/
def SubscriptionPlan.monthly_equivalent (p : SubscriptionPlan) : Option ℚ :=
  if p.duration_days = 0 then none
  else some (p.price * 30 / (p.duration_days : ℚ))

/-- Model of `accounts/models.py::CustomerSubscription`.  `pk = none` means
the row has not been inserted yet (Python `not self.pk`); `customer` is the
`OneToOneField` key. -/
structure CustomerSubscription where
  pk : Option ℕ
  customer : ℕ
  plan : SubscriptionPlan
  start_date : ℤ
  end_date : Option ℤ
  is_active : Bool
  auto_renew : Bool
  deriving Repr, DecidableEq

/-- Model of `CustomerSubscription.is_expired`: `False` when `end_date` is
null, otherwise `timezone.now() > end_date`. -/
def CustomerSubscription.is_expired (now : ℤ) (s : CustomerSubscription) : Bool :=
  match s.end_date with
  | none => false
  | some e => decide (e < now)

/-- Model of `CustomerSubscription.days_remaining`:
`float("inf")` (= `none`) when `end_date` is null, otherwise
`max(0, (end_date - timezone.now()).days)` where `.days` floors. -/
def CustomerSubscription.days_remaining (now : ℤ) (s : CustomerSubscription) :
    Option ℤ :=
  match s.end_date with
  | none => none
  | some e => some (max 0 (Int.fdiv (e - now) 86400))

/-- First step of `CustomerSubscription.save`: a new row (`not self.pk`)
whose plan has a positive `duration_days` gets
`end_date = start_date + timedelta(days = plan.duration_days)`. -/
def subscriptionSetEnd (s : CustomerSubscription) : CustomerSubscription :=
  if s.pk = none ∧ 0 < s.plan.duration_days then
    { s with end_date := some (s.start_date + 86400 * s.plan.duration_days) }
  else s

/-- Second step of `CustomerSubscription.save`: `is_active` is cleared when
`end_date` is set and the row is expired. -/
def subscriptionExpireFlag (now : ℤ) (s : CustomerSubscription) :
    CustomerSubscription :=
  if s.end_date.isSome ∧ s.is_expired now then { s with is_active := false }
  else s

/-- Model of `CustomerSubscription.save`: the two steps in source order. -/
def subscriptionSave (now : ℤ) (s : CustomerSubscription) : CustomerSubscription :=
  subscriptionExpireFlag now (subscriptionSetEnd s)

end FitnessSite

namespace FitnessSite

/-- C1: for every `CustomerSubscription`, `is_expired` is `False` when
`end_date` is null and otherwise holds exactly when the current time is
strictly after `end_date`; `days_remaining` is infinite (`none`) when
`end_date` is null and otherwise `max 0 w` where `w` is the number of whole
days from now until `end_date` (the unique `w` with
`now + 86400 * w ≤ end_date < now + 86400 * (w + 1)`). -/
theorem subscription_expiry_arithmetic (s : CustomerSubscription) (now : ℤ) :
    (s.end_date = none →
      s.is_expired now = false ∧ s.days_remaining now = none) ∧
    (∀ e : ℤ, s.end_date = some e →
      ((s.is_expired now = true) ↔ e < now) ∧
      ∃ w : ℤ, s.days_remaining now = some (max 0 w) ∧
        now + 86400 * w ≤ e ∧ e < now + 86400 * (w + 1)) := by
  constructor
  · intro h
    simp [CustomerSubscription.is_expired, CustomerSubscription.days_remaining, h]
  · intro e he
    constructor
    · simp [CustomerSubscription.is_expired, he]
    · refine ⟨Int.fdiv (e - now) 86400, ?_, ?_, ?_⟩
      · simp [CustomerSubscription.days_remaining, he]
      · have h1 : (86400 : ℤ) * Int.fdiv (e - now) 86400 + (e - now) % 86400
            = e - now := by
          rw [Int.fdiv_eq_ediv _ (by norm_num)]
          exact Int.ediv_add_emod _ _
        have h2 : 0 ≤ (e - now) % 86400 :=
          Int.emod_nonneg _ (by norm_num)
        omega
      · have h1 : (86400 : ℤ) * Int.fdiv (e - now) 86400 + (e - now) % 86400
            = e - now := by
          rw [Int.fdiv_eq_ediv _ (by norm_num)]
          exact Int.ediv_add_emod _ _
        have h2 : (e - now) % 86400 < 86400 :=
          Int.emod_lt_of_pos _ (by norm_num)
        omega

/-- C10: `monthly_equivalent` is `(price * 30) / duration_days` with no zero
guard: for positive `duration_days` it is exactly that quotient, and for
`duration_days = 0` the division raises (embedded as `none`). -/
theorem monthly_equivalent_no_zero_guard (p : SubscriptionPlan) :
    (0 < p.duration_days →
      p.monthly_equivalent = some (p.price * 30 / (p.duration_days : ℚ))) ∧
    (p.duration_days = 0 → p.monthly_equivalent = none) := by
  constructor
  · intro h
    simp [SubscriptionPlan.monthly_equivalent, Nat.pos_iff_ne_zero.mp h]
  · intro h
    simp [SubscriptionPlan.monthly_equivalent, h]

/-- Uniqueness invariant induced by the `OneToOneField` from
`CustomerSubscription` to `Customer`: no two rows share a customer. -/
def customersUnique (db : List CustomerSubscription) : Prop :=
  db.Pairwise (fun a b => a.customer ≠ b.customer)

/-- The `defaults` dictionary of the `get_or_create` call in
`dashboard_views.py::subscribe_to_plan`: `plan`, `start_date =
timezone.now()`, `end_date = timezone.now() + timedelta(days =
plan.duration_days)`, active, auto-renew, no primary key yet. -/
def freshSubscription (now : ℤ) (cust : ℕ) (plan : SubscriptionPlan) :
    CustomerSubscription :=
  { pk := none, customer := cust, plan := plan, start_date := now,
    end_date := some (now + 86400 * plan.duration_days),
    is_active := true, auto_renew := true }

/-- Model of `CustomerSubscription.objects.get_or_create(customer = customer,
defaults = ...)`: look the row up by customer; when absent, build one from
`freshSubscription`, run the overridden `save` (while the primary key is
still unset), and insert it with a database-assigned primary key.  Returns
the new table, the row, and the `created` flag. -/
def getOrCreateSubscription (now : ℤ) (db : List CustomerSubscription)
    (cust : ℕ) (plan : SubscriptionPlan) :
    List CustomerSubscription × CustomerSubscription × Bool :=
  match db.find? (fun s => s.customer = cust) with
  | some s => (db, s, false)
  | none =>
    ((db ++ [{ subscriptionSave now (freshSubscription now cust plan) with
        pk := some db.length }],
      { subscriptionSave now (freshSubscription now cust plan) with
        pk := some db.length }, true))

/-- Model of the `if not created` branch of `subscribe_to_plan`: overwrite
plan, dates and flags on the existing row and `save` it. -/
def subscribeUpdateExisting (now : ℤ) (sub : CustomerSubscription)
    (plan : SubscriptionPlan) : CustomerSubscription :=
  subscriptionSave now
    { sub with
        plan := plan
        start_date := now
        end_date := some (now + 86400 * plan.duration_days)
        is_active := true
        auto_renew := true }

/-- Model of the subscription-handling part of `subscribe_to_plan`:
`get_or_create`, then on the not-created path the in-place update. -/
def subscribeToPlanSubscription (now : ℤ) (db : List CustomerSubscription)
    (cust : ℕ) (plan : SubscriptionPlan) :
    List CustomerSubscription × CustomerSubscription :=
  let res := getOrCreateSubscription now db cust plan
  if res.2.2 then (res.1, res.2.1)
  else
    let updated := subscribeUpdateExisting now res.2.1 plan
    (res.1.map fun s => if s.customer = cust then updated else s, updated)

/-- `subscriptionSetEnd` only touches `end_date`. -/
theorem subscriptionSetEnd_customer (s : CustomerSubscription) :
    (subscriptionSetEnd s).customer = s.customer := by
  unfold subscriptionSetEnd
  split <;> rfl

/-- `subscriptionSetEnd` never touches `start_date`. -/
theorem subscriptionSetEnd_start_date (s : CustomerSubscription) :
    (subscriptionSetEnd s).start_date = s.start_date := by
  unfold subscriptionSetEnd
  split <;> rfl

/-- `subscriptionExpireFlag` only touches `is_active`. -/
theorem subscriptionExpireFlag_customer (now : ℤ) (s : CustomerSubscription) :
    (subscriptionExpireFlag now s).customer = s.customer := by
  unfold subscriptionExpireFlag
  split <;> rfl

/-- `subscriptionExpireFlag` never touches `start_date`. -/
theorem subscriptionExpireFlag_start_date (now : ℤ) (s : CustomerSubscription) :
    (subscriptionExpireFlag now s).start_date = s.start_date := by
  unfold subscriptionExpireFlag
  split <;> rfl

/-- `subscriptionExpireFlag` never touches `end_date`. -/
theorem subscriptionExpireFlag_end_date (now : ℤ) (s : CustomerSubscription) :
    (subscriptionExpireFlag now s).end_date = s.end_date := by
  unfold subscriptionExpireFlag
  split <;> rfl

/-- The overridden `save` never touches the `customer` column. -/
theorem subscriptionSave_customer (now : ℤ) (s : CustomerSubscription) :
    (subscriptionSave now s).customer = s.customer := by
  unfold subscriptionSave
  rw [subscriptionExpireFlag_customer, subscriptionSetEnd_customer]

/-- The overridden `save` never touches the `start_date` column. -/
theorem subscriptionSave_start_date (now : ℤ) (s : CustomerSubscription) :
    (subscriptionSave now s).start_date = s.start_date := by
  unfold subscriptionSave
  rw [subscriptionExpireFlag_start_date, subscriptionSetEnd_start_date]

/-- C8: a new `CustomerSubscription` (no primary key yet) for a plan with
positive `duration_days` is saved with `end_date = start_date +
duration_days` days; the row created by `subscribe_to_plan` satisfies the
same equation; and the one-subscription-per-customer invariant is preserved
by the subscribe flow. -/
theorem new_subscription_end_date :
    (∀ (now : ℤ) (s : CustomerSubscription), s.pk = none →
      0 < s.plan.duration_days →
      (subscriptionSave now s).end_date =
        some (s.start_date + 86400 * s.plan.duration_days)) ∧
    (∀ (now : ℤ) (db : List CustomerSubscription) (cust : ℕ)
      (plan : SubscriptionPlan),
      (getOrCreateSubscription now db cust plan).2.2 = true →
      0 < plan.duration_days →
      (getOrCreateSubscription now db cust plan).2.1.end_date =
        some ((getOrCreateSubscription now db cust plan).2.1.start_date +
          86400 * plan.duration_days)) ∧
    (∀ (now : ℤ) (db : List CustomerSubscription) (cust : ℕ)
      (plan : SubscriptionPlan), customersUnique db →
      customersUnique (subscribeToPlanSubscription now db cust plan).1) := by
  have hsave : ∀ (now : ℤ) (s : CustomerSubscription), s.pk = none →
      0 < s.plan.duration_days →
      (subscriptionSave now s).end_date =
        some (s.start_date + 86400 * s.plan.duration_days) := by
    intro now s hpk hdur
    unfold subscriptionSave
    rw [subscriptionExpireFlag_end_date]
    unfold subscriptionSetEnd
    rw [if_pos ⟨hpk, hdur⟩]
  refine ⟨hsave, ?_, ?_⟩
  · intro now db cust plan hcreated hdur
    cases hfind : db.find? (fun s => s.customer = cust) with
    | some s => simp [getOrCreateSubscription, hfind] at hcreated
    | none =>
      simp only [getOrCreateSubscription, hfind]
      rw [hsave now (freshSubscription now cust plan) rfl hdur,
        subscriptionSave_start_date]
      rfl
  · intro now db cust plan hun
    cases hfind : db.find? (fun s => s.customer = cust) with
    | some s =>
      have hcust : s.customer = cust := by
        have := List.find?_some hfind
        simpa using this
      have hf : ∀ x : CustomerSubscription,
          (if x.customer = cust then subscribeUpdateExisting now s plan
            else x).customer = x.customer := by
        intro x
        by_cases hx : x.customer = cust
        · simp [hx, subscribeUpdateExisting, subscriptionSave_customer, hcust]
        · simp [hx]
      simp only [subscribeToPlanSubscription, getOrCreateSubscription, hfind,
        Bool.false_eq_true, if_false]
      refine List.Pairwise.map _ ?_ hun
      intro a b hab
      rw [hf a, hf b]
      exact hab
    | none =>
      simp only [subscribeToPlanSubscription, getOrCreateSubscription, hfind,
        if_true, customersUnique, List.pairwise_append]
      refine ⟨hun, by simp, ?_⟩
      intro a ha b hb
      have hane : ¬ a.customer = cust := by
        have := (List.find?_eq_none.mp hfind) a ha
        simpa using this
      have hbc : b.customer = cust := by
        have hb1 : b = { subscriptionSave now (freshSubscription now cust plan)
            with pk := some db.length } := by simpa using hb
        rw [hb1]
        show (subscriptionSave now (freshSubscription now cust plan)).customer
          = cust
        rw [subscriptionSave_customer]
        rfl
      rw [hbc]
      exact hane

/-- Concrete monthly plan used in witnesses. -/
def samplePlan : SubscriptionPlan :=
  { name := "Premium", price := 60, duration_days := 30, trial_days := 0,
    trainer_support := true, premium_content := true, is_active := true }

/-- Plan with `duration_days = 0`, for the division-by-zero branch. -/
def zeroDayPlan : SubscriptionPlan :=
  { name := "Broken", price := 60, duration_days := 0, trial_days := 0,
    trainer_support := false, premium_content := false, is_active := true }

/-- Witness for C10 at concrete plans: a 30-day 60-unit plan has monthly
equivalent 60, and a 0-day plan raises. -/
theorem monthly_equivalent_no_zero_guard_witness :
    samplePlan.monthly_equivalent = some 60 ∧
    zeroDayPlan.monthly_equivalent = none := by
  constructor
  · have h := (monthly_equivalent_no_zero_guard samplePlan).1 (by decide)
    rw [h]
    norm_num [samplePlan]
  · exact (monthly_equivalent_no_zero_guard zeroDayPlan).2 rfl

/-- Subscription without an end date, for witnesses. -/
def sampleSubNone : CustomerSubscription :=
  { pk := some 1, customer := 1, plan := samplePlan, start_date := 0,
    end_date := none, is_active := true, auto_renew := false }

/-- Subscription ending at instant 500, for witnesses. -/
def sampleSubSome : CustomerSubscription :=
  { pk := some 2, customer := 2, plan := samplePlan, start_date := 0,
    end_date := some 500, is_active := true, auto_renew := false }

/-- Witness for C1 at concrete subscriptions and instants. -/
theorem subscription_expiry_arithmetic_witness :
    (sampleSubNone.is_expired 0 = false ∧
      sampleSubNone.days_remaining 0 = none) ∧
    ((sampleSubSome.is_expired 1000 = true) ↔ (500 : ℤ) < 1000) ∧
    (∃ w : ℤ, sampleSubSome.days_remaining 1000 = some (max 0 w) ∧
      1000 + 86400 * w ≤ 500 ∧ (500 : ℤ) < 1000 + 86400 * (w + 1)) :=
  ⟨(subscription_expiry_arithmetic sampleSubNone 0).1 rfl,
   ((subscription_expiry_arithmetic sampleSubSome 1000).2 500 rfl).1,
   ((subscription_expiry_arithmetic sampleSubSome 1000).2 500 rfl).2⟩

/-- Witness for C8 at a concrete customer, plan and empty table. -/
theorem new_subscription_end_date_witness :
    (subscriptionSave 0 (freshSubscription 0 7 samplePlan)).end_date
      = some ((freshSubscription 0 7 samplePlan).start_date
          + 86400 * ((freshSubscription 0 7 samplePlan).plan.duration_days : ℤ)) ∧
    (getOrCreateSubscription 0 [] 7 samplePlan).2.1.end_date
      = some ((getOrCreateSubscription 0 [] 7 samplePlan).2.1.start_date
          + 86400 * (samplePlan.duration_days : ℤ)) ∧
    customersUnique (subscribeToPlanSubscription 0 [] 7 samplePlan).1 :=
  ⟨new_subscription_end_date.1 0 (freshSubscription 0 7 samplePlan) rfl
      (by decide),
   new_subscription_end_date.2.1 0 [] 7 samplePlan rfl (by decide),
   new_subscription_end_date.2.2 0 [] 7 samplePlan
      (by simp [customersUnique])⟩

/-- Model of `accounts/models.py::Goal` (the columns the claims touch). -/
structure Goal where
  id : ℕ
  customer : ℕ
  title : String
  target_value : Option ℚ
  current_value : ℚ
  status : String
  is_active : Bool
  is_completed : Bool
  completed_at : Option ℤ
  deriving Repr, DecidableEq

/-- Model of the overridden `Goal.save`: sync the compatibility booleans with
`status` before persisting. -/
def Goal.save (g : Goal) : Goal :=
  { g with
      is_active := decide (g.status = "active")
      is_completed := decide (g.status = "completed") }

/-- Model of `accounts/models.py::Notification` (columns used by the
claims). -/
structure Notification where
  customer : ℕ
  title : String
  message : String
  notification_type : String
  deriving Repr, DecidableEq

/-- Model of the `update_progress` action of
`dashboard_views.py::goals_management`: set `current_value`; when
`goal.target_value` is truthy (non-null and nonzero, Python truthiness of a
`Decimal`) and the new value reaches it, mark the goal completed, stamp
`completed_at` and create a notification for the customer; finally `save`
(which syncs the compatibility booleans). -/
def updateGoalProgress (now : ℤ) (g : Goal) (newValue : ℚ)
    (notifs : List Notification) : Goal × List Notification :=
  match g.target_value with
  | some t =>
    if t ≠ 0 ∧ t ≤ newValue then
      (Goal.save { g with
          current_value := newValue
          status := "completed"
          completed_at := some now },
       notifs ++ [{ customer := g.customer
                    title := "Goal Completed! 🎉"
                    message := "Congratulations! You\u0027ve completed your goal: "
                      ++ g.title
                    notification_type := "general" }])
    else (Goal.save { g with current_value := newValue }, notifs)
  | none => (Goal.save { g with current_value := newValue }, notifs)

end FitnessSite

namespace FitnessSite

/-- C6: after every `Goal.save`, `is_active` holds exactly when the status is
`active` and `is_completed` exactly when it is `completed`. -/
theorem goal_save_syncs_flags (g : Goal) :
    ((Goal.save g).is_active = true ↔ (Goal.save g).status = "active") ∧
    ((Goal.save g).is_completed = true ↔ (Goal.save g).status = "completed") := by
  unfold Goal.save
  constructor <;> simp

/-- Goal whose `target_value` is the (truthy-falsy) decimal zero. -/
def zeroTargetGoal : Goal :=
  { id := 1, customer := 3, title := "walk", target_value := some 0,
    current_value := 0, status := "active", is_active := true,
    is_completed := false, completed_at := none }

/-- Counterexample to C4 as stated: this goal has a `target_value` (namely
`0`) and the new `current_value = 5` is `≥` that target, yet the update
leaves the status `active`, stamps nothing, and creates no notification,
because Python evaluates `Decimal(0)` as falsy in
`if goal.target_value and goal.current_value >= goal.target_value`. -/
theorem goal_zero_target_counterexample :
    zeroTargetGoal.target_value = some 0 ∧ (0 : ℚ) ≤ 5 ∧
    (updateGoalProgress 100 zeroTargetGoal 5 []).1.status = "active" ∧
    (updateGoalProgress 100 zeroTargetGoal 5 []).1.completed_at = none ∧
    (updateGoalProgress 100 zeroTargetGoal 5 []).2 = [] := by
  refine ⟨rfl, by norm_num, ?_, ?_, ?_⟩ <;> rfl

/-- C4 (amended): whenever a customer updates the progress of a goal whose
`target_value` is non-null and nonzero and the new `current_value` reaches
the target, the status becomes `completed`, `completed_at` is stamped, the
compatibility boolean follows, and one notification is appended for that
customer. -/
theorem goal_completion_notifies (now : ℤ) (g : Goal) (v t : ℚ)
    (notifs : List Notification)
    (ht : g.target_value = some t) (ht0 : t ≠ 0) (hv : t ≤ v) :
    (updateGoalProgress now g v notifs).1.status = "completed" ∧
    (updateGoalProgress now g v notifs).1.completed_at = some now ∧
    (updateGoalProgress now g v notifs).1.is_completed = true ∧
    (updateGoalProgress now g v notifs).1.current_value = v ∧
    (updateGoalProgress now g v notifs).2 = notifs ++
      [{ customer := g.customer
         title := "Goal Completed! 🎉"
         message := "Congratulations! You\u0027ve completed your goal: "
           ++ g.title
         notification_type := "general" }] := by
  unfold updateGoalProgress
  rw [ht]
  dsimp only
  rw [if_pos ⟨ht0, hv⟩]
  refine ⟨?_, ?_, ?_, ?_, ?_⟩ <;> simp [Goal.save]

/-- Goal with target 10, for the C4 witness. -/
def tenTargetGoal : Goal :=
  { id := 2, customer := 4, title := "run", target_value := some 10,
    current_value := 3, status := "active", is_active := true,
    is_completed := false, completed_at := none }

/-- Witness for C4 (amended) at a concrete goal and update. -/
theorem goal_completion_notifies_witness :
    (updateGoalProgress 50 tenTargetGoal 12 []).1.status = "completed" ∧
    (updateGoalProgress 50 tenTargetGoal 12 []).1.completed_at = some 50 ∧
    (updateGoalProgress 50 tenTargetGoal 12 []).1.is_completed = true ∧
    (updateGoalProgress 50 tenTargetGoal 12 []).1.current_value = 12 ∧
    (updateGoalProgress 50 tenTargetGoal 12 []).2 = [] ++
      [{ customer := tenTargetGoal.customer
         title := "Goal Completed! 🎉"
         message := "Congratulations! You\u0027ve completed your goal: "
           ++ tenTargetGoal.title
         notification_type := "general" }] :=
  goal_completion_notifies 50 tenTargetGoal 12 10 [] rfl (by norm_num)
    (by norm_num)

/-- Model of `accounts/models.py::Trainer` (columns used by auto-assignment). -/
structure Trainer where
  id : ℕ
  is_verified : Bool
  deriving Repr, DecidableEq

/-- Model of `accounts/models.py::TrainerAssignment`; `customer` is a
`OneToOneField`, so at most one row per customer. -/
structure TrainerAssignment where
  customer : ℕ
  trainer : ℕ
  assigned_date : ℤ
  is_active : Bool
  notes : String
  deriving Repr, DecidableEq

/-- Model of the annotation `Count('assigned_customers', filter =
Q(assigned_customers__is_active = True))`: the number of active assignment
rows pointing at the trainer. -/
def activeAssignmentCount (asg : List TrainerAssignment) (t : ℕ) : ℕ :=
  (asg.filter (fun a => decide (a.trainer = t) && a.is_active)).length

/-- Running minimum underlying `order_by('assignment_count').first()` on a
stably ordered queryset: keep the current best on ties, replace it on a
strictly smaller count. -/
def leastLoadedFold (asg : List TrainerAssignment) :
    Option Trainer → List Trainer → Option Trainer
  | best, [] => best
  | none, t :: ts => leastLoadedFold asg (some t) ts
  | some b, t :: ts =>
    if activeAssignmentCount asg t.id < activeAssignmentCount asg b.id then
      leastLoadedFold asg (some t) ts
    else leastLoadedFold asg (some b) ts

/-- Model of the trainer query in `dashboard_views.py::subscribe_to_plan`:
annotate every trainer with its active-assignment count, keep the verified
ones, order by the count (stable) and take the first. -/
def availableTrainer (trainers : List Trainer) (asg : List TrainerAssignment) :
    Option Trainer :=
  leastLoadedFold asg none (trainers.filter (fun t => t.is_verified))

/-- Uniqueness invariant induced by the `OneToOneField` from
`TrainerAssignment` to `Customer`. -/
def assignmentsUnique (asg : List TrainerAssignment) : Prop :=
  asg.Pairwise (fun a b => a.customer ≠ b.customer)

/-- The `defaults` row of the `TrainerAssignment.objects.get_or_create` call
in `subscribe_to_plan`. -/
def autoAssignmentRecord (now : ℤ) (cust tid : ℕ) (planName : String) :
    TrainerAssignment :=
  { customer := cust
    trainer := tid
    assigned_date := now
    is_active := true
    notes := "Automatically assigned with " ++ planName ++ " subscription." }

/-- The `if not assignment_created` update of `subscribe_to_plan`: point the
existing row at the chosen trainer and reactivate it. -/
def reassignRecord (tid : ℕ) (planName : String) (a : TrainerAssignment) :
    TrainerAssignment :=
  { a with
      trainer := tid
      is_active := true
      notes := "Reassigned with " ++ planName ++ " subscription upgrade." }

/-- Model of the trainer-assignment block of `subscribe_to_plan`: when a
verified trainer is available, `get_or_create` the customer's assignment
(insert a fresh active row, or point the existing row at the chosen trainer
and reactivate it). -/
def assignTrainerForPlan (trainers : List Trainer)
    (asg : List TrainerAssignment) (now : ℤ) (cust : ℕ) (planName : String) :
    List TrainerAssignment :=
  match availableTrainer trainers asg with
  | none => asg
  | some t =>
    match asg.find? (fun a => a.customer = cust) with
    | none => asg ++ [autoAssignmentRecord now cust t.id planName]
    | some _ => asg.map (fun a =>
        if a.customer = cust then reassignRecord t.id planName a else a)

/-- The running minimum returns the first element of the candidate list
attaining the minimal count: everything strictly before the result has a
strictly larger count, everything after has a larger-or-equal one. -/
theorem leastLoadedFold_spec (asg : List TrainerAssignment) (ts : List Trainer)
    (b : Trainer) :
    ∃ m p q, leastLoadedFold asg (some b) ts = some m ∧
      b :: ts = p ++ m :: q ∧
      (∀ u ∈ p, activeAssignmentCount asg m.id < activeAssignmentCount asg u.id) ∧
      (∀ u ∈ q, activeAssignmentCount asg m.id ≤ activeAssignmentCount asg u.id) := by
  induction ts generalizing b with
  | nil => exact ⟨b, [], [], rfl, rfl, by simp, by simp⟩
  | cons t ts ih =>
    by_cases h : activeAssignmentCount asg t.id < activeAssignmentCount asg b.id
    · obtain ⟨m, p, q, hfold, hdecomp, hp, hq⟩ := ih t
      have hmt : activeAssignmentCount asg m.id ≤ activeAssignmentCount asg t.id := by
        cases p with
        | nil =>
          have : t = m := by
            have := congrArg (fun l => List.head? l) hdecomp
            simpa using this
          rw [this]
        | cons x p2 =>
          have hx : t = x := by
            have := congrArg (fun l => List.head? l) hdecomp
            simpa using this
          have hlt := hp x (by simp)
          rw [← hx] at hlt
          exact le_of_lt hlt
      refine ⟨m, b :: p, q, ?_, ?_, ?_, hq⟩
      · simpa [leastLoadedFold, h] using hfold
      · rw [List.cons_append, ← hdecomp]
      · intro u hu
        rcases List.mem_cons.mp hu with hub | hup
        · rw [hub]
          exact lt_of_le_of_lt hmt h
        · exact hp u hup
    · obtain ⟨m, p, q, hfold, hdecomp, hp, hq⟩ := ih b
      cases p with
      | nil =>
        have hbm : b = m := by
          have := congrArg (fun l => List.head? l) hdecomp
          simpa using this
        have hts : ts = q := by
          have := congrArg (fun l => List.tail l) hdecomp
          simpa using this
        refine ⟨m, [], t :: q, ?_, ?_, by simp, ?_⟩
        · simpa [leastLoadedFold, h] using hfold
        · rw [List.nil_append, ← hbm, ← hts]
        · intro u hu
          rcases List.mem_cons.mp hu with hut | huq
          · rw [hut, ← hbm]
            omega
          · exact hq u huq
      | cons x p2 =>
        have hbx : b = x := by
          have := congrArg (fun l => List.head? l) hdecomp
          simpa using this
        have hts : ts = p2 ++ m :: q := by
          have := congrArg (fun l => List.tail l) hdecomp
          simpa using this
        refine ⟨m, b :: t :: p2, q, ?_, ?_, ?_, hq⟩
        · simpa [leastLoadedFold, h] using hfold
        · rw [hts]
          rfl
        · intro u hu
          have hmb : activeAssignmentCount asg m.id < activeAssignmentCount asg b.id := by
            have := hp x (by simp)
            rw [← hbx] at this
            exact this
          rcases List.mem_cons.mp hu with hub | hu2
          · rw [hub]; exact hmb
          · rcases List.mem_cons.mp hu2 with hut | hup2
            · rw [hut]
              omega
            · exact hp u (List.mem_cons_of_mem x hup2)

/-- `reassignRecord` keeps the `customer` column. -/
theorem reassignRecord_customer (tid : ℕ) (planName : String)
    (a : TrainerAssignment) : (reassignRecord tid planName a).customer = a.customer :=
  rfl

/-- C2 (amended): when the auto-assignment query returns a trainer `m`, `m`
is the first trainer in iteration order, among the verified trainers, whose
active-assignment count is minimal (every earlier verified trainer has a
strictly larger count, every later one a larger-or-equal count); and the
assignment step leaves the customer with a single assignment row, which is
active and points at `m`. -/
theorem trainer_auto_assignment (trainers : List Trainer)
    (asg : List TrainerAssignment) (now : ℤ) (cust : ℕ) (planName : String)
    (m : Trainer) (hsel : availableTrainer trainers asg = some m)
    (hun : assignmentsUnique asg) :
    (∃ p q, trainers.filter (fun t => t.is_verified) = p ++ m :: q ∧
      (∀ u ∈ p, activeAssignmentCount asg m.id < activeAssignmentCount asg u.id) ∧
      (∀ u ∈ q, activeAssignmentCount asg m.id ≤ activeAssignmentCount asg u.id)) ∧
    assignmentsUnique (assignTrainerForPlan trainers asg now cust planName) ∧
    (∃ a ∈ assignTrainerForPlan trainers asg now cust planName,
      a.customer = cust) ∧
    (∀ a ∈ assignTrainerForPlan trainers asg now cust planName,
      a.customer = cust → a.trainer = m.id ∧ a.is_active = true) := by
  refine ⟨?_, ?_, ?_, ?_⟩
  · unfold availableTrainer at hsel
    cases vl : trainers.filter (fun t => t.is_verified) with
    | nil =>
      rw [vl] at hsel
      exact absurd hsel (by simp [leastLoadedFold])
    | cons v vs =>
      rw [vl] at hsel
      have hsel2 : leastLoadedFold asg (some v) vs = some m := hsel
      obtain ⟨m2, p, q, hfold, hdecomp, hp, hq⟩ := leastLoadedFold_spec asg vs v
      rw [hfold] at hsel2
      have hm2 : m2 = m := Option.some.inj hsel2
      subst hm2
      exact ⟨p, q, hdecomp, hp, hq⟩
  · unfold assignTrainerForPlan
    rw [hsel]
    cases hfind : asg.find? (fun a => a.customer = cust) with
    | none =>
      dsimp only
      refine List.pairwise_append.mpr ⟨hun, by simp, ?_⟩
      intro a ha b hb
      have hna : ¬ a.customer = cust := by
        simpa using List.find?_eq_none.mp hfind a ha
      have hb1 : b = autoAssignmentRecord now cust m.id planName := by
        simpa using hb
      rw [hb1]
      exact hna
    | some a0 =>
      dsimp only
      refine List.Pairwise.map _ ?_ hun
      intro a b hab
      by_cases ha : a.customer = cust <;> by_cases hb2 : b.customer = cust
      · exact absurd (ha.trans hb2.symm) hab
      · simpa [ha, hb2, reassignRecord_customer] using hab
      · simp [ha, hb2, reassignRecord_customer]
      · simpa [ha, hb2] using hab
  · unfold assignTrainerForPlan
    rw [hsel]
    cases hfind : asg.find? (fun a => a.customer = cust) with
    | none =>
      dsimp only
      exact ⟨autoAssignmentRecord now cust m.id planName, by simp, rfl⟩
    | some a0 =>
      dsimp only
      have ha0 : a0 ∈ asg := List.mem_of_find?_eq_some hfind
      have hc : a0.customer = cust := by simpa using List.find?_some hfind
      refine ⟨_, List.mem_map_of_mem _ ha0, ?_⟩
      simp [hc, reassignRecord_customer]
  · unfold assignTrainerForPlan
    rw [hsel]
    cases hfind : asg.find? (fun a => a.customer = cust) with
    | none =>
      dsimp only
      intro a ha hc
      rcases List.mem_append.mp ha with h1 | h2
      · exact absurd hc (by simpa using List.find?_eq_none.mp hfind a h1)
      · have ha2 : a = autoAssignmentRecord now cust m.id planName := by
          simpa using h2
        rw [ha2]
        exact ⟨rfl, rfl⟩
    | some a0 =>
      dsimp only
      intro a ha hc
      obtain ⟨x, hx, hfx⟩ := List.mem_map.mp ha
      by_cases hxc : x.customer = cust
      · rw [← hfx]
        simp [hxc, reassignRecord]
      · rw [← hfx] at hc
        simp [hxc] at hc

/-- Trainer pool with an unverified trainer carrying the lightest load. -/
def cTrainers : List Trainer := [{ id := 1, is_verified := false },
  { id := 2, is_verified := true }]

/-- One active assignment, held by trainer 2. -/
def cAsg : List TrainerAssignment := [{ customer := 9
                                        trainer := 2
                                        assigned_date := 0
                                        is_active := true
                                        notes := "n" }]

/-- Counterexample to C2 as stated: the query restricts to verified trainers
(`is_verified = True`), so with an unverified trainer (id 1, zero active
assignments) and a verified one (id 2, one active assignment) the code
selects trainer 2, which does not have the fewest active assignments among
all trainers. -/
theorem trainer_auto_assignment_counterexample :
    availableTrainer cTrainers cAsg = some { id := 2, is_verified := true } ∧
    ({ id := 1, is_verified := false } : Trainer) ∈ cTrainers ∧
    activeAssignmentCount cAsg 1 < activeAssignmentCount cAsg 2 := by
  refine ⟨rfl, by simp [cTrainers], by decide⟩

/-- Verified trainer pool for the C2 witness. -/
def wTrainers : List Trainer := [{ id := 1, is_verified := true },
  { id := 2, is_verified := true }]

/-- Assignment table for the C2 witness: customer 9 is on trainer 1, so
trainer 2 carries the least load. -/
def wAsg : List TrainerAssignment := [{ customer := 9
                                        trainer := 1
                                        assigned_date := 0
                                        is_active := true
                                        notes := "n" }]

/-- Witness for C2 (amended) at a concrete pool: trainer 2 (zero active
assignments) is selected over trainer 1 (one active assignment) and customer
9 ends up with a single active assignment pointing at trainer 2. -/
theorem trainer_auto_assignment_witness :
    (∃ p q, wTrainers.filter (fun t => t.is_verified) =
        p ++ { id := 2, is_verified := true } :: q ∧
      (∀ u ∈ p, activeAssignmentCount wAsg 2 < activeAssignmentCount wAsg u.id) ∧
      (∀ u ∈ q, activeAssignmentCount wAsg 2 ≤ activeAssignmentCount wAsg u.id)) ∧
    assignmentsUnique (assignTrainerForPlan wTrainers wAsg 0 9 "Premium") ∧
    (∃ a ∈ assignTrainerForPlan wTrainers wAsg 0 9 "Premium",
      a.customer = 9) ∧
    (∀ a ∈ assignTrainerForPlan wTrainers wAsg 0 9 "Premium",
      a.customer = 9 → a.trainer = 2 ∧ a.is_active = true) :=
  trainer_auto_assignment wTrainers wAsg 0 9 "Premium"
    { id := 2, is_verified := true } rfl (by simp [assignmentsUnique, wAsg])

/-- Model of `accounts/models.py::Resource` (columns used by downloads);
`file` is the stored file rendered as its byte contents. -/
structure Resource where
  id : ℕ
  is_premium : Bool
  is_active : Bool
  file : Option (List ℕ)
  external_url : Option String
  file_url : Option String
  deriving Repr, DecidableEq

/-- Outcome of `dashboard_views.py::download_resource`: an attachment
response carrying the file bytes, a redirect to an external URL, or a
flash-message error redirect back to the resources page. -/
inductive DownloadResult where
  | fileResponse (content : List ℕ)
  | redirectUrl (url : String)
  | errorRedirect (msg : String)
  deriving Repr, DecidableEq

/-- The access check of `download_resource`:
`resource.is_premium and (not subscription or not subscription.is_active or
not subscription.plan.premium_content)`. -/
def premiumDenied (sub : Option CustomerSubscription) (r : Resource) : Bool :=
  r.is_premium &&
    (match sub with
     | none => true
     | some s => !s.is_active || !s.plan.premium_content)

/-- Model of `download_resource` after the customer and resource lookups:
premium gating first, then serve the file, else follow
`external_url or file_url`, else report a missing file. -/
def downloadResource (sub : Option CustomerSubscription) (r : Resource) :
    DownloadResult :=
  if premiumDenied sub r then
    .errorRedirect "Premium subscription required to access this resource."
  else
    match r.file with
    | some content => .fileResponse content
    | none =>
      match r.external_url with
      | some u => .redirectUrl u
      | none =>
        match r.file_url with
        | some u => .redirectUrl u
        | none => .errorRedirect "Resource file not found."

/-- The premium gate passes exactly for an active subscription whose plan has
the `premium_content` flag. -/
theorem premiumDenied_false_iff (sub : Option CustomerSubscription)
    (r : Resource) (hprem : r.is_premium = true) :
    (premiumDenied sub r = false ↔
      ∃ s, sub = some s ∧ s.is_active = true ∧ s.plan.premium_content = true) := by
  cases sub with
  | none => simp [premiumDenied, hprem]
  | some s =>
    cases hsa : s.is_active <;> cases hpc : s.plan.premium_content <;>
      simp [premiumDenied, hprem, hsa, hpc]

/-- C5: a premium resource download is served only to a customer whose
subscription exists, is active and has the `premium_content` plan flag; any
other premium request gets the error redirect and never file content. -/
theorem premium_resource_gating :
    (∀ (sub : Option CustomerSubscription) (r : Resource),
      r.is_premium = true →
      ¬(∃ s, sub = some s ∧ s.is_active = true ∧ s.plan.premium_content = true) →
      downloadResource sub r =
        .errorRedirect "Premium subscription required to access this resource." ∧
      ∀ c, downloadResource sub r ≠ .fileResponse c) ∧
    (∀ (sub : Option CustomerSubscription) (r : Resource) (c : List ℕ),
      r.is_premium = true →
      downloadResource sub r = .fileResponse c →
      ∃ s, sub = some s ∧ s.is_active = true ∧ s.plan.premium_content = true) := by
  constructor
  · intro sub r hprem hno
    have hden : premiumDenied sub r = true := by
      cases h : premiumDenied sub r with
      | false => exact absurd ((premiumDenied_false_iff sub r hprem).mp h) hno
      | true => rfl
    unfold downloadResource
    rw [if_pos hden]
    exact ⟨rfl, fun c => by simp⟩
  · intro sub r c hprem heq
    by_cases hden : premiumDenied sub r = true
    · rw [downloadResource, if_pos hden] at heq
      simp at heq
    · exact (premiumDenied_false_iff sub r hprem).mp
        (Bool.not_eq_true _ ▸ Bool.of_not_eq_true hden)

/-- Premium resource with a stored file, for the C5 witness. -/
def premiumResource : Resource :=
  { id := 1, is_premium := true, is_active := true, file := some [1, 2, 3],
    external_url := none, file_url := none }

/-- Active premium subscription, for the C5 witness. -/
def premiumSub : CustomerSubscription :=
  { pk := some 3, customer := 5, plan := samplePlan, start_date := 0,
    end_date := some 2592000, is_active := true, auto_renew := true }

/-- Witness for C5: with no subscription the premium download is refused with
the error redirect, and a served premium download implies an active
subscription with the premium flag. -/
theorem premium_resource_gating_witness :
    (downloadResource none premiumResource =
      .errorRedirect "Premium subscription required to access this resource." ∧
      ∀ c, downloadResource none premiumResource ≠ .fileResponse c) ∧
    (∃ s, some premiumSub = some s ∧ s.is_active = true ∧
      s.plan.premium_content = true) :=
  ⟨premium_resource_gating.1 none premiumResource rfl (by simp),
   premium_resource_gating.2 (some premiumSub) premiumResource [1, 2, 3] rfl rfl⟩

/-- Model of `accounts/models.py::Session` (columns the claims touch);
dates and times are integers (day and minute numbers). -/
structure SessionRecord where
  customer : ℕ
  trainer : ℕ
  session_date : ℕ
  session_time : ℕ
  duration_minutes : ℕ
  session_type : String
  status : String
  notes : String
  deriving Repr, DecidableEq

/-- Two rows occupy the same `(trainer, session_date, session_time)` slot. -/
def sameSlot (a b : SessionRecord) : Bool :=
  decide (a.trainer = b.trainer) && decide (a.session_date = b.session_date)
    && decide (a.session_time = b.session_time)

/-- Invariant of `Session.Meta.unique_together = ('trainer', 'session_date',
'session_time')`: no two rows share a slot. -/
def slotUnique (db : List SessionRecord) : Prop :=
  db.Pairwise (fun a b => sameSlot a b = false)

/-- Database-level insert under the `unique_together` constraint: `none` is
the `IntegrityError`. -/
def insertSessionRow (db : List SessionRecord) (s : SessionRecord) :
    Option (List SessionRecord) :=
  if db.any (fun x => sameSlot x s) then none else some (db ++ [s])

/-- Outcome of the POST branch of
`trainer_dashboard_views.py::trainer_schedule`: the not-assigned error, the
conflict error, a created session, or the caught-exception error (the broad
`except Exception` that swallows the `IntegrityError`). -/
inductive ScheduleResult where
  | notAssigned
  | conflictMessage
  | scheduled
  | errorMessage
  deriving Repr, DecidableEq

/-- The row `Session.objects.create(...)` builds in `trainer_schedule`. -/
def newSessionRow (trainer cust d tm dur : ℕ) (stype notes : String) :
    SessionRecord :=
  { customer := cust, trainer := trainer, session_date := d,
    session_time := tm, duration_minutes := dur, session_type := stype,
    status := "scheduled", notes := notes }

/-- Model of the POST branch of `trainer_schedule`: verify the active
assignment of the customer to this trainer, check for a conflicting
`scheduled`-or-`confirmed` session at the slot, then create the row (the
database still enforcing `unique_together`, any `IntegrityError` being
caught by the broad handler). -/
def trainerScheduleSession (db : List SessionRecord)
    (asg : List TrainerAssignment) (trainer cust d tm dur : ℕ)
    (stype notes : String) : ScheduleResult × List SessionRecord :=
  if (asg.any fun a => decide (a.trainer = trainer)
      && decide (a.customer = cust) && a.is_active) = false then
    (.notAssigned, db)
  else if db.any (fun x => decide (x.trainer = trainer)
      && decide (x.session_date = d) && decide (x.session_time = tm)
      && (decide (x.status = "scheduled") || decide (x.status = "confirmed"))) then
    (.conflictMessage, db)
  else
    match insertSessionRow db (newSessionRow trainer cust d tm dur stype notes) with
    | some db2 => (.scheduled, db2)
    | none => (.errorMessage, db)

/-- C7: scheduling preserves the no-two-sessions-per-slot invariant, and a
request for an occupied `(trainer, date, time)` slot is rejected: no session
is created and the table is unchanged. -/
theorem session_slot_unique (db : List SessionRecord)
    (asg : List TrainerAssignment) (trainer cust d tm dur : ℕ)
    (stype notes : String) (hun : slotUnique db) :
    slotUnique (trainerScheduleSession db asg trainer cust d tm dur
      stype notes).2 ∧
    ((∃ x ∈ db, x.trainer = trainer ∧ x.session_date = d ∧
        x.session_time = tm) →
      (trainerScheduleSession db asg trainer cust d tm dur stype notes).1 ≠
        .scheduled ∧
      (trainerScheduleSession db asg trainer cust d tm dur stype notes).2 = db) := by
  unfold trainerScheduleSession
  by_cases h1 : (asg.any fun a => decide (a.trainer = trainer)
      && decide (a.customer = cust) && a.is_active) = false
  · rw [if_pos h1]
    exact ⟨hun, fun _ => ⟨by simp, rfl⟩⟩
  · rw [if_neg h1]
    by_cases h2 : db.any (fun x => decide (x.trainer = trainer)
        && decide (x.session_date = d) && decide (x.session_time = tm)
        && (decide (x.status = "scheduled") || decide (x.status = "confirmed")))
      = true
    · rw [if_pos h2]
      exact ⟨hun, fun _ => ⟨by simp, rfl⟩⟩
    · rw [if_neg h2]
      unfold insertSessionRow
      by_cases h3 : (db.any fun x =>
          sameSlot x (newSessionRow trainer cust d tm dur stype notes)) = true
      · rw [if_pos h3]
        exact ⟨hun, fun _ => ⟨by simp, rfl⟩⟩
      · rw [if_neg h3]
        constructor
        · refine List.pairwise_append.mpr ⟨hun, by simp, ?_⟩
          intro a ha b hb
          have hb1 : b = newSessionRow trainer cust d tm dur stype notes := by
            simpa using hb
          rw [hb1]
          have := List.any_eq_true.not.mp h3
          push_neg at this
          simpa using this a ha
        · intro hocc
          obtain ⟨x, hx, hxt, hxd, hxm⟩ := hocc
          exact absurd (List.any_eq_true.mpr ⟨x, hx, by
            simp [sameSlot, newSessionRow, hxt, hxd, hxm]⟩) h3

/-- Session table for the C7 witness: trainer 1 already holds slot
`(date 10, time 600)`. -/
def wSessions : List SessionRecord := [newSessionRow 1 9 10 600 60 "personal" "y"]

/-- Witness for C7 at a concrete table and request. -/
theorem session_slot_unique_witness :
    slotUnique (trainerScheduleSession wSessions wAsg 1 9 10 600 45
      "personal" "x").2 ∧
    ((∃ x ∈ wSessions, x.trainer = 1 ∧ x.session_date = 10 ∧
        x.session_time = 600) →
      (trainerScheduleSession wSessions wAsg 1 9 10 600 45 "personal" "x").1 ≠
        .scheduled ∧
      (trainerScheduleSession wSessions wAsg 1 9 10 600 45 "personal" "x").2 =
        wSessions) :=
  session_slot_unique wSessions wAsg 1 9 10 600 45 "personal" "x"
    (by simp [slotUnique, wSessions])

/-- Model of the signup form data held in `request.session['signup_data']`. -/
structure SignupData where
  username : String
  email : String
  password : String
  phone : String
  role : String
  deriving Repr, DecidableEq

/-- Model of the session keys the OTP flow uses: `signup_data`, `otp`,
`otp_expiry`, `otp_attempts`. -/
structure SessionState where
  signup_data : Option SignupData
  otp : Option String
  otp_expiry : Option ℤ
  otp_attempts : ℕ
  deriving Repr, DecidableEq

/-- Model of a `User` row as created by `User.objects.create_user` in
`verify_otp` (no OTP column exists). -/
structure UserRecord where
  username : String
  email : String
  password : String
  deriving Repr, DecidableEq

/-- Model of `random.randint(lo, hi)` with randomness source `r`: a uniform
pick in `[lo, hi]`. -/
def randint (lo hi r : ℕ) : ℕ := lo + r % (hi - lo + 1)

/-- Model of `str(random.randint(100000, 999999))` in `signup_customer`. -/
def generateOtp (r : ℕ) : String := toString (randint 100000 999999 r)

/-- Outcome of `views.py::signup_customer` on a valid form: the redirect to
`verify_otp`, or the unhandled SMTP exception (`send_mail` is called with
`fail_silently = False` and no surrounding `try`). -/
inductive SignupResult where
  | redirectVerifyOtp
  | smtpException
  deriving Repr, DecidableEq

/-- Model of the valid-form POST branch of `views.py::signup_customer`:
store the form data, a fresh 6-digit OTP, a five-minute expiry and a zero
attempt counter in the session, then send the OTP email
(`fail_silently = False`).  The user table is not touched. -/
def signupCustomer (now : ℤ) (r : ℕ) (data : SignupData) (emailOk : Bool)
    (users : List UserRecord) :
    SessionState × List UserRecord × SignupResult :=
  ({ signup_data := some { data with role := "customer" }
     otp := some (generateOtp r)
     otp_expiry := some (now + 300)
     otp_attempts := 0 },
   users,
   if emailOk then .redirectVerifyOtp else .smtpException)

/-- Outcome of the POST branch of `views.py::verify_otp`. -/
inductive VerifyResult where
  | sessionExpiredRestart
  | otpExpired
  | tooManyAttemptsRestart
  | usernameTakenRestart
  | emailTakenRestart
  | accountCreated
  | welcomeEmailException
  | invalidOtp
  deriving Repr, DecidableEq

/-- Session after `verify_otp` pops the four signup keys. -/
def clearedSession : SessionState :=
  { signup_data := none, otp := none, otp_expiry := none, otp_attempts := 0 }

/-- Model of the POST branch of `views.py::verify_otp`: missing session keys
restart signup; an expired OTP is rejected; five or more failed attempts
reject every submission (the check precedes the comparison with the stored
code); a wrong code increments the counter; a right code creates the user
(after uniqueness checks), sends the welcome email
(`fail_silently = False`) and clears the session keys. -/
def verifyOtpPost (now : ℤ) (entered : String) (emailOk : Bool)
    (sess : SessionState) (users : List UserRecord) :
    VerifyResult × SessionState × List UserRecord :=
  match sess.signup_data, sess.otp, sess.otp_expiry with
  | some data, some stored, some expiry =>
    if expiry < now then (.otpExpired, sess, users)
    else if 5 ≤ sess.otp_attempts then (.tooManyAttemptsRestart, sess, users)
    else if entered = stored then
      if users.any (fun u => u.username = data.username) then
        (.usernameTakenRestart, sess, users)
      else if users.any (fun u => u.email = data.email) then
        (.emailTakenRestart, sess, users)
      else if emailOk then
        (.accountCreated, clearedSession,
         users ++ [{ username := data.username, email := data.email,
                     password := data.password }])
      else
        (.welcomeEmailException, sess,
         users ++ [{ username := data.username, email := data.email,
                     password := data.password }])
    else (.invalidOtp, { sess with otp_attempts := sess.otp_attempts + 1 },
      users)
  | _, _, _ => (.sessionExpiredRestart, sess, users)

/-- The generated OTP value lies in `[100000, 999999]` and has exactly six
decimal digits. -/
theorem randint_six_digits (r : ℕ) :
    100000 ≤ randint 100000 999999 r ∧ randint 100000 999999 r ≤ 999999 ∧
    (Nat.digits 10 (randint 100000 999999 r)).length = 6 := by
  have hmod : r % 900000 < 900000 := Nat.mod_lt _ (by norm_num)
  have h1 : 100000 ≤ randint 100000 999999 r := by unfold randint; omega
  have h2 : randint 100000 999999 r ≤ 999999 := by unfold randint; omega
  refine ⟨h1, h2, ?_⟩
  rw [Nat.digits_len 10 _ (by norm_num) (by omega)]
  have hlog : Nat.log 10 (randint 100000 999999 r) = 5 := by
    refine Nat.log_eq_of_pow_le_of_lt_pow ?_ ?_
    · norm_num
      omega
    · norm_num
      omega
  omega

/-- C3: during OTP signup the session-stored OTP is a 6-digit code whose
expiry is stamped five minutes after issuance; a submission strictly after
the expiry is rejected; once five attempts have failed every further
submission is rejected, including the correct code, with the
restart-signup redirect; a wrong code increments the attempt counter; and
the OTP lives only in the session: signup writes nothing to the user table
and the only row `verify_otp` can insert carries username, email and
password, never the OTP. -/
theorem otp_signup_enforcement :
    (∀ (now : ℤ) (r : ℕ) (data : SignupData) (emailOk : Bool)
      (users : List UserRecord),
      (signupCustomer now r data emailOk users).1.otp
        = some (toString (randint 100000 999999 r)) ∧
      (signupCustomer now r data emailOk users).1.otp_expiry
        = some (now + 300) ∧
      100000 ≤ randint 100000 999999 r ∧ randint 100000 999999 r ≤ 999999 ∧
      (Nat.digits 10 (randint 100000 999999 r)).length = 6 ∧
      (signupCustomer now r data emailOk users).2.1 = users) ∧
    (∀ (now t0 : ℤ) (entered : String) (emailOk : Bool)
      (sess : SessionState) (users : List UserRecord) (data : SignupData)
      (stored : String),
      sess.signup_data = some data → sess.otp = some stored →
      sess.otp_expiry = some (t0 + 300) → t0 + 300 < now →
      (verifyOtpPost now entered emailOk sess users).1 = .otpExpired ∧
      (verifyOtpPost now entered emailOk sess users).2.2 = users) ∧
    (∀ (now : ℤ) (emailOk : Bool) (sess : SessionState)
      (users : List UserRecord) (data : SignupData) (stored : String)
      (expiry : ℤ),
      sess.signup_data = some data → sess.otp = some stored →
      sess.otp_expiry = some expiry → ¬ expiry < now →
      5 ≤ sess.otp_attempts →
      (verifyOtpPost now stored emailOk sess users).1
        = .tooManyAttemptsRestart ∧
      (verifyOtpPost now stored emailOk sess users).2.2 = users) ∧
    (∀ (now : ℤ) (entered : String) (emailOk : Bool) (sess : SessionState)
      (users : List UserRecord) (data : SignupData) (stored : String)
      (expiry : ℤ),
      sess.signup_data = some data → sess.otp = some stored →
      sess.otp_expiry = some expiry → ¬ expiry < now →
      sess.otp_attempts < 5 → entered ≠ stored →
      (verifyOtpPost now entered emailOk sess users).1 = .invalidOtp ∧
      (verifyOtpPost now entered emailOk sess users).2.1.otp_attempts
        = sess.otp_attempts + 1 ∧
      (verifyOtpPost now entered emailOk sess users).2.2 = users) ∧
    (∀ (now : ℤ) (entered : String) (emailOk : Bool) (sess : SessionState)
      (users : List UserRecord),
      (verifyOtpPost now entered emailOk sess users).2.2 = users ∨
      ∃ data, sess.signup_data = some data ∧
        (verifyOtpPost now entered emailOk sess users).2.2 =
          users ++ [{ username := data.username, email := data.email,
                      password := data.password }]) := by
  refine ⟨?_, ?_, ?_, ?_, ?_⟩
  · intro now r data emailOk users
    obtain ⟨h1, h2, h3⟩ := randint_six_digits r
    exact ⟨rfl, rfl, h1, h2, h3, rfl⟩
  · intro now t0 entered emailOk sess users data stored hsd hso hse hlt
    unfold verifyOtpPost
    rw [hsd, hso, hse]
    dsimp only
    rw [if_pos hlt]
    exact ⟨rfl, rfl⟩
  · intro now emailOk sess users data stored expiry hsd hso hse hnow hat
    unfold verifyOtpPost
    rw [hsd, hso, hse]
    dsimp only
    rw [if_neg hnow, if_pos hat]
    exact ⟨rfl, rfl⟩
  · intro now entered emailOk sess users data stored expiry hsd hso hse hnow
      hat hne
    unfold verifyOtpPost
    rw [hsd, hso, hse]
    dsimp only
    rw [if_neg hnow, if_neg (by omega : ¬ 5 ≤ sess.otp_attempts),
      if_neg hne]
    exact ⟨rfl, rfl, rfl⟩
  · intro now entered emailOk sess users
    rcases hsd : sess.signup_data with _ | data
    · left
      unfold verifyOtpPost
      rw [hsd]
    · rcases hso : sess.otp with _ | stored
      · left
        unfold verifyOtpPost
        rw [hsd, hso]
      · rcases hse : sess.otp_expiry with _ | expiry
        · left
          unfold verifyOtpPost
          rw [hsd, hso, hse]
        · unfold verifyOtpPost
          rw [hsd, hso, hse]
          dsimp only
          by_cases h1 : expiry < now
          · rw [if_pos h1]
            left
            rfl
          · rw [if_neg h1]
            by_cases h2 : 5 ≤ sess.otp_attempts
            · rw [if_pos h2]
              left
              rfl
            · rw [if_neg h2]
              by_cases h3 : entered = stored
              · rw [if_pos h3]
                by_cases h4 :
                    (users.any fun u => decide (u.username = data.username))
                      = true
                · rw [if_pos h4]
                  left
                  rfl
                · rw [if_neg h4]
                  by_cases h5 :
                      (users.any fun u => decide (u.email = data.email)) = true
                  · rw [if_pos h5]
                    left
                    rfl
                  · rw [if_neg h5]
                    by_cases h6 : emailOk = true
                    · rw [if_pos h6]
                      right
                      exact ⟨data, rfl, rfl⟩
                    · rw [if_neg h6]
                      right
                      exact ⟨data, rfl, rfl⟩
              · rw [if_neg h3]
                left
                rfl

/-- Form data used by the C3 witness. -/
def someData : SignupData :=
  { username := "alice", email := "alice@example.com", password := "pw",
    phone := "123", role := "customer" }

/-- Session at five minutes after issuance at time 0, zero attempts. -/
def otpSession : SessionState :=
  { signup_data := some someData, otp := some "654321",
    otp_expiry := some 300, otp_attempts := 0 }

/-- Same session after five failed attempts. -/
def otpSessionMaxed : SessionState :=
  { signup_data := some someData, otp := some "654321",
    otp_expiry := some 300, otp_attempts := 5 }

/-- Witness for C3 at concrete sessions: a fresh signup stamps the code and
expiry; a submission at time 1000 (past 0 + 300) is expired; after five
failures even the stored code is rejected; a wrong code increments the
counter; and the user table never receives the OTP. -/
theorem otp_signup_enforcement_witness :
    ((signupCustomer 0 42 someData true []).1.otp
        = some (toString (randint 100000 999999 42)) ∧
      (signupCustomer 0 42 someData true []).1.otp_expiry = some (0 + 300) ∧
      100000 ≤ randint 100000 999999 42 ∧ randint 100000 999999 42 ≤ 999999 ∧
      (Nat.digits 10 (randint 100000 999999 42)).length = 6 ∧
      (signupCustomer 0 42 someData true []).2.1 = []) ∧
    ((verifyOtpPost 1000 "654321" true otpSession []).1 = .otpExpired ∧
      (verifyOtpPost 1000 "654321" true otpSession []).2.2 = []) ∧
    ((verifyOtpPost 100 "654321" true otpSessionMaxed []).1
        = .tooManyAttemptsRestart ∧
      (verifyOtpPost 100 "654321" true otpSessionMaxed []).2.2 = []) ∧
    ((verifyOtpPost 100 "000000" true otpSession []).1 = .invalidOtp ∧
      (verifyOtpPost 100 "000000" true otpSession []).2.1.otp_attempts
        = otpSession.otp_attempts + 1 ∧
      (verifyOtpPost 100 "000000" true otpSession []).2.2 = []) ∧
    ((verifyOtpPost 100 "654321" true otpSession []).2.2 = [] ∨
      ∃ data, otpSession.signup_data = some data ∧
        (verifyOtpPost 100 "654321" true otpSession []).2.2 =
          [] ++ [{ username := data.username, email := data.email,
                   password := data.password }]) :=
  ⟨otp_signup_enforcement.1 0 42 someData true [],
   otp_signup_enforcement.2.1 1000 0 "654321" true otpSession [] someData
     "654321" rfl rfl (by decide) (by decide),
   otp_signup_enforcement.2.2.1 100 true otpSessionMaxed [] someData "654321"
     300 rfl rfl rfl (by decide) (by decide),
   otp_signup_enforcement.2.2.2.1 100 "000000" true otpSession [] someData
     "654321" 300 rfl rfl rfl (by decide) (by decide) (by decide),
   otp_signup_enforcement.2.2.2.2 100 "654321" true otpSession []⟩

/-- Source module holding a `send_mail` call. -/
inductive SourceModule where
  | viewsPy
  | adminViewsPy
  | adminPy
  deriving Repr, DecidableEq

/-- One `send_mail` call site: which module and function it sits in, the
`fail_silently` argument it passes, and whether a `try` block encloses it. -/
structure EmailCallSite where
  modSrc : SourceModule
  funcName : String
  failSilently : Bool
  inTryBlock : Bool
  deriving Repr, DecidableEq

/-- Every `send_mail` call site in the repository, with the `fail_silently`
flag it passes; none of them sits inside a `try` block. -/
def emailCallSites : List EmailCallSite :=
  [{ modSrc := .viewsPy, funcName := "signup_customer",
     failSilently := false, inTryBlock := false },
   { modSrc := .viewsPy, funcName := "signup_trainer",
     failSilently := false, inTryBlock := false },
   { modSrc := .viewsPy, funcName := "verify_otp",
     failSilently := false, inTryBlock := false },
   { modSrc := .viewsPy, funcName := "resend_otp",
     failSilently := false, inTryBlock := false },
   { modSrc := .adminViewsPy,
     funcName := "AdminTrainerAssignmentView.send_assignment_notifications customer email",
     failSilently := true, inTryBlock := false },
   { modSrc := .adminViewsPy,
     funcName := "AdminTrainerAssignmentView.send_assignment_notifications trainer email",
     failSilently := true, inTryBlock := false },
   { modSrc := .adminViewsPy,
     funcName := "AdminResourceSharingView.send_resource_email",
     failSilently := true, inTryBlock := false },
   { modSrc := .adminViewsPy, funcName := "AdminMessageView.post",
     failSilently := true, inTryBlock := false },
   { modSrc := .adminViewsPy, funcName := "send_assignment_notifications",
     failSilently := true, inTryBlock := false },
   { modSrc := .adminPy, funcName := "CustomerAdmin.assign_trainer_view",
     failSilently := true, inTryBlock := false },
   { modSrc := .adminPy, funcName := "CustomerAdmin.send_message_view",
     failSilently := true, inTryBlock := false },
   { modSrc := .adminPy, funcName := "TrainerRegistrationAdmin.approve_trainers",
     failSilently := true, inTryBlock := false },
   { modSrc := .adminPy, funcName := "TrainerRegistrationAdmin.reject_trainers",
     failSilently := true, inTryBlock := false },
   { modSrc := .adminPy, funcName := "ResourceAdmin.send_resource_email",
     failSilently := true, inTryBlock := false }]

/-- An email failure at a call site is swallowed exactly when the call
passes `fail_silently = True` or a `try` block encloses it. -/
def emailFailureIgnored (s : EmailCallSite) : Bool :=
  s.failSilently || s.inTryBlock

/-- Model of the admin-side
`admin_views.py::send_assignment_notifications(customer, trainer)`: the
notification row is created and both emails go out with
`fail_silently = True`, so the outcome never depends on email delivery. -/
def adminAssignmentNotify (notifs : List Notification) (cust : ℕ)
    (trainerName : String) (_emailOk : Bool) : List Notification :=
  notifs ++ [{ customer := cust
               title := "Trainer Assigned"
               message := "You have been assigned to trainer " ++ trainerName
                 ++ ". They will contact you soon to begin your training sessions."
               notification_type := "trainer" }]

/-- The `signup_customer` call site. -/
def signupCustomerSite : EmailCallSite :=
  { modSrc := .viewsPy, funcName := "signup_customer",
    failSilently := false, inTryBlock := false }

/-- The `approve_trainers` admin-action call site. -/
def approveTrainersSite : EmailCallSite :=
  { modSrc := .adminPy, funcName := "TrainerRegistrationAdmin.approve_trainers",
    failSilently := true, inTryBlock := false }

/-- Counterexample to C9 as stated: the four signup/OTP `send_mail` calls in
`accounts/views.py` pass `fail_silently = False` outside any `try`, so a
delivery failure there is not ignored: `signup_customer` ends in an
unhandled SMTP exception instead of the redirect to `verify_otp`. -/
theorem email_fire_and_forget_counterexample :
    (emailCallSites.all fun s => emailFailureIgnored s) = false ∧
    signupCustomerSite ∈ emailCallSites ∧
    emailFailureIgnored signupCustomerSite = false ∧
    (signupCustomer 0 42 someData false []).2.2 = .smtpException ∧
    (signupCustomer 0 42 someData true []).2.2 = .redirectVerifyOtp := by
  refine ⟨rfl, ?_, rfl, rfl, rfl⟩
  simp [emailCallSites, signupCustomerSite]

/-- C9 (amended): email failures are silently ignored at every admin-side
`send_mail` call site (`admin_views.py`, `admin.py`, all passing
`fail_silently = True`), and at no call site of `accounts/views.py` (the
signup/OTP emails pass `fail_silently = False` with no enclosing `try`, so
a failure propagates); the admin assignment-notification outcome is
independent of email delivery. -/
theorem email_fire_and_forget_amended :
    (∀ s ∈ emailCallSites,
      emailFailureIgnored s = true ↔ s.modSrc ≠ .viewsPy) ∧
    (∀ (notifs : List Notification) (cust : ℕ) (trainerName : String)
      (emailOk : Bool),
      adminAssignmentNotify notifs cust trainerName emailOk =
        adminAssignmentNotify notifs cust trainerName true) :=
  ⟨by decide, fun _ _ _ _ => rfl⟩

/-- Witness for C9 (amended) at concrete call sites. -/
theorem email_fire_and_forget_amended_witness :
    (emailFailureIgnored approveTrainersSite = true ↔
      approveTrainersSite.modSrc ≠ .viewsPy) ∧
    adminAssignmentNotify [] 5 "Bob" false =
      adminAssignmentNotify [] 5 "Bob" true :=
  ⟨email_fire_and_forget_amended.1 approveTrainersSite
      (by simp [emailCallSites, approveTrainersSite]),
   email_fire_and_forget_amended.2 [] 5 "Bob" false⟩

end FitnessSite
